import Mathlib

/-!
Verification development for the COVID-19 Norway Slack watcher (`live.py`).

The Python program is shallowly embedded as follows:
* Python `int` becomes `Int` (no overflow in Python), the per-capita ratio
  becomes `Rat` (the spec calls it a signed rational).
* Python dicts whose key set is dynamic (the `"changes"` sub-records built by
  `get_state_changes`) become insertion-ordered association lists
  `List (String × PyVal)`, so key presence/absence and iteration order are
  modelled exactly; dicts with a fixed field set become structures.
* A Python exception becomes `Except PyError`; the unbound local variable
  `confirmed_per_1k_capita_diff` is threaded explicitly as an `Option Rat`
  (`none` = unbound, reading it raises `NameError`).
* In-place mutation of the fetched snapshot is modelled by state passing:
  `get_state_changes` returns the (possibly annotated) current snapshot
  together with its `changes` result, and the module-level mutable
  `INITIAL_SLACK_MESSAGE["blocks"]` list is threaded through
  `format_slack_message` as an explicit `List Block` state.
* The HTTP sink is an opaque function `SlackMessage → Nat × String`
  (status, body); printing a success/error report becomes the returned
  `DeliveryResult`.
-/

/-- Python exceptions that the embedded code can raise. -/
inductive PyError where
  | nameError
  | keyError
deriving DecidableEq, Repr

/-- Python values that occur inside the dynamic `"changes"` dict records. -/
inductive PyVal where
  | int (n : Int)
  | rat (q : Rat)
  | bool (b : Bool)
  | str (s : String)
deriving DecidableEq, Repr

/-- An insertion-ordered Python dict with string keys. -/
abbrev PyDict := List (String × PyVal)

/-- Dict lookup, `d[k]` (first binding wins; Python dicts have unique keys). -/
def PyDict.get (d : PyDict) (k : String) : Option PyVal :=
  (d.find? (fun kv => kv.1 == k)).map (fun kv => kv.2)

/-- Equality of embedded computation outcomes is decidable (used to evaluate
the embedding on concrete inputs). -/
instance {e a : Type} [DecidableEq e] [DecidableEq a] : DecidableEq (Except e a) :=
  fun x y =>
  match x, y with
  | Except.error u, Except.error v => decidable_of_iff (u = v) (by simp)
  | Except.ok u, Except.ok v => decidable_of_iff (u = v) (by simp)
  | Except.error _, Except.ok _ => isFalse (by simp)
  | Except.ok _, Except.error _ => isFalse (by simp)

/-- Python `value > 0`. The `bool`/`str` branches are never reached by the
program (those keys are skipped before comparison); `True > 0` is `True` in
Python, and comparison of `str` with `0` would raise, which we model as
`false` since it is unreachable. -/
def pyGt0 : PyVal → Bool
  | .int n => decide (0 < n)
  | .rat q => decide (0 < q)
  | .bool b => b
  | .str _ => false

/-- Python `value < 0` (same remarks as `pyGt0`). -/
def pyLt0 : PyVal → Bool
  | .int n => decide (n < 0)
  | .rat q => decide (q < 0)
  | .bool _ => false
  | .str _ => false

/-- Python `str(value)`. Only `int` values reach `str` in the program; the
`rat` branch (Python `float`) is unreachable because the per-capita key is
skipped by the formatter. -/
def pyStr : PyVal → String
  | .int n => toString n
  | .rat q => toString q
  | .bool b => if b then "True" else "False"
  | .str s => s

/-- Python truthiness `if value:`. -/
def pyTruthy : PyVal → Bool
  | .int n => decide (n ≠ 0)
  | .rat q => decide (q ≠ 0)
  | .bool b => b
  | .str s => decide (s ≠ "")

/-- The `result["totals"]` dict: fixed metric fields plus the `"changes"`
sub-dict installed by `get_state_changes` (absent key modelled as `none`). -/
structure Totals where
  confirmed : Int
  dead : Int
  recovered : Int
  changes : Option PyDict
deriving DecidableEq, Repr

/-- One municipality dict of `result["cases"]`. A missing
`"municipalityCode"` key is modelled as `none`; `changes` is the `"changes"`
sub-dict attached by `get_state_changes` (absent on fetch). -/
structure Municipality where
  name : String
  municipalityCode : Option Nat
  parent : Option String
  confirmed : Int
  dead : Int
  recovered : Int
  confirmedPer1kCapita : Rat
  changes : Option PyDict
deriving DecidableEq, Repr

/-- A fetched snapshot: `{"totals": ..., "cases": [...]}`. -/
structure Snapshot where
  totals : Totals
  cases : List Municipality
deriving DecidableEq, Repr

/-- The pickled state file content `{"last_updated": ..., "data": ...}`;
`data = none` models the initial empty dict `{}` (falsy). The timestamp is
kept abstract as the string `datetime.isoformat()` would produce. -/
structure StoredState where
  last_updated : String
  data : Option Snapshot
deriving DecidableEq, Repr

/-- The `changes` dict returned by `get_state_changes`:
`{"last_updated": previous timestamp, "totals": result["totals"] (aliased),
"cases": [changed municipalities]}`. -/
structure Changes where
  last_updated : String
  totals : Totals
  cases : List Municipality
deriving DecidableEq, Repr

/-- Item lookup `data[key]` on a totals dict, for the metric keys the
formatter reads (other keys would raise `KeyError`, modelled as `none`). -/
def Totals.item (t : Totals) : String → Option PyVal := fun k =>
  if k = "confirmed" then some (.int t.confirmed)
  else if k = "dead" then some (.int t.dead)
  else if k = "recovered" then some (.int t.recovered)
  else none

/-- Item lookup `data[key]` on a municipality dict for the keys the
formatter can read. -/
def Municipality.item (m : Municipality) : String → Option PyVal := fun k =>
  if k = "name" then some (.str m.name)
  else if k = "confirmed" then some (.int m.confirmed)
  else if k = "dead" then some (.int m.dead)
  else if k = "recovered" then some (.int m.recovered)
  else if k = "confirmedPer1kCapita" then some (.rat m.confirmedPer1kCapita)
  else none

/-- The counterpart search of `get_state_changes` (lines 84–98 of
`live.py`): the `"Ukjent"` bucket matches a stored entry by name only; any
other municipality matches the first stored entry that is not the `"Ukjent"`
bucket and has an equal `municipalityCode`. -/
def findStored (stored : List Municipality) (m : Municipality) : Option Municipality :=
  if m.name = "Ukjent" then
    stored.find? (fun s => s.name == "Ukjent")
  else
    stored.find? (fun s => s.name != "Ukjent" && s.municipalityCode == m.municipalityCode)

/-- One iteration of the municipality loop of `get_state_changes`
(lines 84–135). `pc` is the current binding of the Python local
`confirmed_per_1k_capita_diff` (`none` = still unbound). Returns the new
binding, the municipality as left in `result["cases"]` (annotated in place
when changed), and the entry appended to `changes["cases"]`, if any.
Reading the unbound local in the all-zero test raises `NameError`. -/
def processMunicipality (stored : List Municipality) (pc : Option Rat)
    (m : Municipality) :
    Except PyError (Option Rat × Municipality × Option Municipality) :=
  match findStored stored m with
  | none =>
    -- new municipality: the per-capita local is NOT assigned here
    match pc with
    | none => Except.error PyError.nameError
    | some v =>
      if v = 0 ∧ m.confirmed = 0 ∧ m.dead = 0 ∧ m.recovered = 0 then
        Except.ok (some v, m, none)
      else
        let mc : PyDict :=
          [("is_new", .bool true), ("confirmedPer1kCapita", .rat v),
           ("confirmed", .int m.confirmed), ("dead", .int m.dead),
           ("recovered", .int m.recovered)]
        let m' := { m with changes := some mc }
        Except.ok (some v, m', some m')
  | some s =>
    let v := m.confirmedPer1kCapita - s.confirmedPer1kCapita
    let cd := m.confirmed - s.confirmed
    let dd := m.dead - s.dead
    let rd := m.recovered - s.recovered
    if v = 0 ∧ cd = 0 ∧ dd = 0 ∧ rd = 0 then
      Except.ok (some v, m, none)
    else
      let mc : PyDict :=
        [("is_new", .bool false), ("confirmedPer1kCapita", .rat v),
         ("confirmed", .int cd), ("dead", .int dd), ("recovered", .int rd)]
      let m' := { m with changes := some mc }
      Except.ok (some v, m', some m')

/-- The whole municipality loop: threads the `confirmed_per_1k_capita_diff`
binding through the iterations; returns the municipality list as left in
`result["cases"]` and the accumulated `changes["cases"]`. -/
def processCases (stored : List Municipality) :
    Option Rat → List Municipality →
    Except PyError (List Municipality × List Municipality)
  | _, [] => Except.ok ([], [])
  | pc, m :: rest => do
    let (pc', m', app) ← processMunicipality stored pc m
    let (ann, chd) ← processCases stored pc' rest
    Except.ok (m' :: ann, app.toList ++ chd)

/-- `get_state_changes(result)` (lines 56–137 of `live.py`), with the state
read from the file passed explicitly. Returns the current snapshot as the
function leaves it (it is mutated in place: the totals gain a `"changes"`
sub-dict and changed municipalities gain `"changes"` sub-dicts) together
with the returned `changes` dict (`none` for the first run and for
identical totals). -/
def get_state_changes (state : StoredState) (result : Snapshot) :
    Except PyError (Snapshot × Option Changes) :=
  match state.data with
  | none => Except.ok (result, none)
  | some data =>
    if data.totals.confirmed = result.totals.confirmed
        ∧ data.totals.dead = result.totals.dead
        ∧ data.totals.recovered = result.totals.recovered then
      Except.ok (result, none)
    else
      let total_changes : PyDict :=
        [("confirmed", .int (result.totals.confirmed - data.totals.confirmed)),
         ("dead", .int (result.totals.dead - data.totals.dead)),
         ("recovered", .int (result.totals.recovered - data.totals.recovered))]
      let newTotals : Totals := { result.totals with changes := some total_changes }
      match processCases data.cases none result.cases with
      | Except.error e => Except.error e
      | Except.ok (ann, chd) =>
        Except.ok (⟨newTotals, ann⟩,
          some ⟨state.last_updated, newTotals, chd⟩)

/-- One Slack block. The Python dict shapes used by the program are a
context block, a divider, and a mrkdwn section (the `section` keyword of
Lean forces the spelled-out constructor name). -/
inductive Block where
  | context (text : String)
  | divider
  | sectionBlock (text : String)
deriving DecidableEq, Repr

/-- A Slack webhook message envelope. -/
structure SlackMessage where
  username : String
  icon_emoji : String
  channel : String
  blocks : List Block
deriving DecidableEq, Repr

/-- The module-level `INITIAL_SLACK_MESSAGE` template (lines 18–33). Its
`blocks` list is mutable shared state: `format_slack_message` only takes a
shallow `.copy()`, so the list object is shared with the template. -/
def INITIAL_SLACK_MESSAGE : SlackMessage :=
  { username := "COVID-19"
    icon_emoji := ":biohazard_sign:"
    channel := "#covid-19"
    blocks := [Block.context ":biohazard_sign: *COVID-19 OPPDATERING* :biohazard_sign:"] }

/-- `generate_text_block(text)` (lines 140–144). -/
def generate_text_block (text : String) : List Block :=
  [Block.divider, Block.sectionBlock text]

/-- The arrow chosen for a delta value (lines 153–158). -/
def pyArrow (v : PyVal) : String :=
  if pyGt0 v then "▲ " else if pyLt0 v then "▼ " else ""

/-- `str("+" + str(value) if value > 0 else value)` (line 160). -/
def pyValueStr (v : PyVal) : String :=
  if pyGt0 v then "+" ++ pyStr v else pyStr v

/-- One delta line of the rendered text (lines 161–170): `a` is `data[key]`
(the current absolute value), `v` the delta value from the changes dict. -/
def numberLine (locale : String → String) (key : String) (a v : PyVal) : String :=
  "\n_" ++ locale key ++ "_: *" ++ pyStr a ++ "* | Endring: *"
    ++ pyArrow v ++ pyValueStr v ++ "*"

/-- `format_number_text(data)` (lines 147–172). `item` is the `data[key]`
lookup of the surrounding dict, `changes` its `"changes"` entry (reading a
missing key raises `KeyError`). Iterates the changes dict in insertion
order, skipping the `confirmedPer1kCapita` and `is_new` keys, and appends
one line per remaining key. `locale` is the `LOCALE_MAPPING` lookup. -/
def format_number_text (locale : String → String) (item : String → Option PyVal)
    (changes : Option PyDict) : Except PyError String :=
  match changes with
  | none => Except.error PyError.keyError
  | some rec =>
    rec.foldlM (fun text kv =>
      if kv.1 = "confirmedPer1kCapita" ∨ kv.1 = "is_new" then pure text
      else
        match item kv.1 with
        | none => Except.error PyError.keyError
        | some a => pure (text ++ numberLine locale kv.1 a kv.2)) ""

/-- The blocks appended for one municipality of `changes["cases"]`
(lines 187–197): name, optional parent, `:new:` marker, delta lines. -/
def formatMunBlock (locale : String → String) (m : Municipality) :
    Except PyError (List Block) :=
  match m.changes.bind (fun d => PyDict.get d "is_new") with
  | none => Except.error PyError.keyError
  | some v =>
    match format_number_text locale m.item m.changes with
    | Except.error e => Except.error e
    | Except.ok t =>
      let base := "*" ++ m.name
        ++ (match m.parent with | some p => " (" ++ p ++ ")" | none => "") ++ "*"
      let base := if pyTruthy v then base ++ " :new:" else base
      Except.ok (generate_text_block (base ++ t))

/-- The municipality loop of `format_slack_message`, threading the shared
blocks list; on an exception the blocks appended so far remain (the shared
list was mutated before the exception escaped). -/
def formatCasesLoop (locale : String → String) (g : List Block) :
    List Municipality → List Block × Except PyError Unit
  | [] => (g, Except.ok ())
  | m :: rest =>
    match formatMunBlock locale m with
    | Except.error e => (g, Except.error e)
    | Except.ok bs => formatCasesLoop locale (g ++ bs) rest

/-- `format_slack_message(changes)` (lines 175–198). `g` is the current
content of the shared `INITIAL_SLACK_MESSAGE["blocks"]` list; the shallow
`.copy()` shares that list, so every append lands in the template too. The
returned first component is the list content after the call (the new
template state); the message, on success, carries that same list. -/
def format_slack_message (locale : String → String) (g : List Block)
    (changes : Changes) : List Block × Except PyError SlackMessage :=
  let g1 := g ++ [Block.context ("Tidligere status oppdatering: " ++ changes.last_updated)]
  match format_number_text locale changes.totals.item changes.totals.changes with
  | Except.error e => (g1, Except.error e)
  | Except.ok t =>
    let g2 := g1 ++ generate_text_block ("*:flag-no: Landsbasis :flag-no:*" ++ t)
    match formatCasesLoop locale g2 changes.cases with
    | (g3, Except.error e) => (g3, Except.error e)
    | (g3, Except.ok _) => (g3, Except.ok { INITIAL_SLACK_MESSAGE with blocks := g3 })

/-- Outcome of one webhook POST as reported by `send_slack_message`
(lines 221–226): success is printed only on HTTP 200; otherwise the error
report with the response body is printed. -/
inductive DeliveryResult where
  | success
  | failure (status : Nat) (body : String)
deriving DecidableEq, Repr

/-- One actual POST to the webhook (lines 213–226). `sink` returns the
response `(status, body)`. -/
def deliverOnce (sink : SlackMessage → Nat × String) (msg : SlackMessage) :
    SlackMessage × DeliveryResult :=
  (msg, if (sink msg).1 = 200 then DeliveryResult.success
        else DeliveryResult.failure (sink msg).1 (sink msg).2)

/-- The chunk slicing `[blocks[x : x + 50] for x in range(0, len(blocks), 50)]`
(line 207). -/
def sliceChunks : List Block → List (List Block)
  | [] => []
  | x :: xs => (x :: xs).take 50 :: sliceChunks ((x :: xs).drop 50)
termination_by l => l.length
decreasing_by
  simp only [List.length_drop, List.length_cons]
  omega

/-- Every chunk produced by the slicing has at most 50 blocks. -/
theorem sliceChunks_length_le (l : List Block) :
    ∀ c ∈ sliceChunks l, c.length ≤ 50 := by
  generalize hn : l.length = n
  induction n using Nat.strong_induction_on generalizing l with
  | _ n ih =>
    cases l with
    | nil => intro c hc; simp [sliceChunks] at hc
    | cons x xs =>
      intro c hc
      rw [sliceChunks] at hc
      rcases List.mem_cons.mp hc with h | h
      · subst h; simp
      · subst hn
        exact ih ((x :: xs).drop 50).length (by simp; omega) _ rfl c h

/-- `send_slack_message(slack_message)` (lines 201–226): if the message has
more than 50 blocks it is split into consecutive 50-block chunks, the
message's blocks field is replaced by each chunk in turn and the function
recurses (each chunk then passes the size check and is POSTed). Returns
the list of performed deliveries in order. -/
def send_slack_message (sink : SlackMessage → Nat × String)
    (msg : SlackMessage) : List (SlackMessage × DeliveryResult) :=
  if h : msg.blocks.length > 50 then
    ((sliceChunks msg.blocks).attach.map
      (fun c => send_slack_message sink { msg with blocks := c.1 })).flatten
  else
    [deliverOnce sink msg]
termination_by msg.blocks.length
decreasing_by
  simp_wf
  have h2 := sliceChunks_length_le msg.blocks c.1 c.2
  omega

/-- One iteration of the main `while True` loop (lines 234–264), for a
cycle whose fetch succeeded with `fetched`. `g` is the shared
`INITIAL_SLACK_MESSAGE["blocks"]` content, `st` the state file content,
`now` the timestamp `set_state` would record. Any exception is caught by
the `except` clause, leaving the state file untouched. `set_state(data)`
(line 260) is reached only when a changes dict was produced and formatting
succeeded, and it persists the in-place annotated snapshot. Returns the new
shared blocks, the new state file content, and the deliveries performed. -/
def cycle (locale : String → String) (sink : SlackMessage → Nat × String)
    (g : List Block) (st : StoredState) (now : String) (fetched : Snapshot) :
    List Block × StoredState × List (SlackMessage × DeliveryResult) :=
  match get_state_changes st fetched with
  | Except.error _ => (g, st, [])
  | Except.ok (_, none) => (g, st, [])
  | Except.ok (ann, some ch) =>
    match format_slack_message locale g ch with
    | (g', Except.error _) => (g', st, [])
    | (g', Except.ok msg) =>
      (g', ⟨now, some ann⟩, send_slack_message sink msg)

/-- Modelled from the spec: `LOCALE_MAPPING` lives in the data-provider
module (`covid.py`), which is not part of the diff-and-notify core source;
the spec only says each delta line carries a per-metric display label.
We use the metric key itself as its label. -/
def LOCALE_MAPPING : String → String := fun k => k

/-! ### Concrete scenario data (from the end-to-end scenario of the spec) -/

/-- Previous snapshot with totals `{confirmed: 100, dead: 2, recovered: 50}`. -/
def scenarioPrev : Snapshot := ⟨⟨100, 2, 50, none⟩, []⟩

/-- The stored state holding `scenarioPrev`. -/
def scenarioState : StoredState := ⟨"2020-03-15T10:00:00", some scenarioPrev⟩

/-- Current snapshot with totals `{confirmed: 105, dead: 2, recovered: 52}`. -/
def scenarioCur : Snapshot := ⟨⟨105, 2, 52, none⟩, []⟩

/-- The `total_changes` dict the code builds for the scenario: note the
`"dead"` key is present with value `0`. -/
def scenarioTotalsDelta : PyDict :=
  [("confirmed", .int 5), ("dead", .int 0), ("recovered", .int 2)]

/-- The current snapshot as annotated in place by `get_state_changes`. -/
def scenarioAnnotated : Snapshot := ⟨⟨105, 2, 52, some scenarioTotalsDelta⟩, []⟩

/-- The changes dict returned for the scenario. -/
def scenarioChanges : Changes :=
  ⟨"2020-03-15T10:00:00", ⟨105, 2, 52, some scenarioTotalsDelta⟩, []⟩

/-! ### Shared characterization of a successful, change-producing diff -/

/-- The `total_changes` record built at lines 76–80 for previous totals `d`
and current totals `t`: all three metrics are present unconditionally. -/
def totalDeltaRecord (d t : Totals) : PyDict :=
  [("confirmed", .int (t.confirmed - d.confirmed)),
   ("dead", .int (t.dead - d.dead)),
   ("recovered", .int (t.recovered - d.recovered))]

theorem get_state_changes_ok_some (st : StoredState) (d S S' : Snapshot)
    (ch : Changes) (hd : st.data = some d)
    (h : get_state_changes st S = Except.ok (S', some ch)) :
    ∃ ann chd,
      processCases d.cases none S.cases = Except.ok (ann, chd)
      ∧ S' = ⟨{ S.totals with changes := some (totalDeltaRecord d.totals S.totals) }, ann⟩
      ∧ ch = ⟨st.last_updated,
          { S.totals with changes := some (totalDeltaRecord d.totals S.totals) }, chd⟩ := by
  obtain ⟨lu, sd⟩ := st
  simp only at hd
  subst hd
  simp only [get_state_changes] at h
  split at h
  · simp at h
  · rcases hp : processCases d.cases none S.cases with e | ⟨ann, chd⟩
    · rw [hp] at h; simp at h
    · rw [hp] at h
      simp only [Except.ok.injEq, Prod.mk.injEq, Option.some.injEq] at h
      exact ⟨ann, chd, rfl, h.1.symm, h.2.symm⟩

/-! ### Claim C8 -/

/-- Claim C8: the diff engine returns no change set (`None`) when the
previous stored snapshot is empty (first run), whenever the previous and
current totals agree field-for-field across the three metrics, and in
particular when the stored snapshot is the current snapshot itself. -/
theorem c8_identical_totals_no_changes (st : StoredState) (S d : Snapshot)
    (lu : String) :
    (st.data = none → get_state_changes st S = Except.ok (S, none))
    ∧ (st.data = some d →
        d.totals.confirmed = S.totals.confirmed →
        d.totals.dead = S.totals.dead →
        d.totals.recovered = S.totals.recovered →
        get_state_changes st S = Except.ok (S, none))
    ∧ get_state_changes ⟨lu, some S⟩ S = Except.ok (S, none) := by
  refine ⟨fun h => ?_, fun h h1 h2 h3 => ?_, ?_⟩
  · simp [get_state_changes, h]
  · simp [get_state_changes, h, h1, h2, h3]
  · simp [get_state_changes]

/-- Witness for C8 at concrete inputs: the empty first-run state, and a
state holding exactly the current snapshot, both yield `None`. -/
theorem c8_identical_totals_no_changes_witness :
    get_state_changes ⟨"t0", none⟩ scenarioCur = Except.ok (scenarioCur, none)
    ∧ get_state_changes ⟨"t0", some scenarioCur⟩ scenarioCur
      = Except.ok (scenarioCur, none) :=
  ⟨(c8_identical_totals_no_changes ⟨"t0", none⟩ scenarioCur scenarioCur "t0").1 rfl,
   (c8_identical_totals_no_changes ⟨"t0", some scenarioCur⟩ scenarioCur
      scenarioCur "t0").2.2⟩

/-! ### Claim C1 -/

/-- Claim C1 counterexample: with previous totals
`{confirmed: 100, dead: 2, recovered: 50}` and current totals
`{confirmed: 105, dead: 2, recovered: 52}`, the `dead` delta is exactly `0`
yet the total-delta record contains the key `"dead"` (value `0`), and the
rendered aggregate text contains a `dead` delta line
(`"\n_dead_: *2* | Endring: *0*"`), contradicting the claimed sparse
representation. -/
theorem c1_sparse_deltas_counterexample :
    get_state_changes scenarioState scenarioCur
      = Except.ok (scenarioAnnotated, some scenarioChanges)
    ∧ PyDict.get scenarioTotalsDelta "dead" = some (PyVal.int 0)
    ∧ format_number_text LOCALE_MAPPING scenarioChanges.totals.item
        scenarioChanges.totals.changes
      = Except.ok ("\n_confirmed_: *105* | Endring: *▲ +5*"
          ++ "\n_dead_: *2* | Endring: *0*"
          ++ "\n_recovered_: *52* | Endring: *▲ +2*") := by
  refine ⟨rfl, rfl, rfl⟩

/-- Claim C1 (amended): the total-delta record is dense, not sparse — it
always contains all three metrics with value `current - previous`, zeros
included, and the rendered output contains one delta line per metric of
the record: a zero delta is rendered with an empty arrow and the text `0`,
a positive delta with `▲ ` and a `+` sign, a negative delta with `▼ `. -/
theorem c1_amended_dense_delta_record (locale : String → String)
    (st : StoredState) (d S S' : Snapshot) (ch : Changes)
    (hd : st.data = some d)
    (h : get_state_changes st S = Except.ok (S', some ch)) :
    ch.totals.changes = some (totalDeltaRecord d.totals S.totals)
    ∧ format_number_text locale ch.totals.item ch.totals.changes
      = Except.ok (String.join
          [numberLine locale "confirmed" (PyVal.int S.totals.confirmed)
            (PyVal.int (S.totals.confirmed - d.totals.confirmed)),
           numberLine locale "dead" (PyVal.int S.totals.dead)
            (PyVal.int (S.totals.dead - d.totals.dead)),
           numberLine locale "recovered" (PyVal.int S.totals.recovered)
            (PyVal.int (S.totals.recovered - d.totals.recovered))])
    ∧ (∀ v : Int, 0 < v → pyArrow (PyVal.int v) = "▲ "
        ∧ pyValueStr (PyVal.int v) = "+" ++ toString v)
    ∧ (∀ v : Int, v < 0 → pyArrow (PyVal.int v) = "▼ "
        ∧ pyValueStr (PyVal.int v) = toString v)
    ∧ pyArrow (PyVal.int 0) = "" ∧ pyValueStr (PyVal.int 0) = "0" := by
  obtain ⟨ann, chd, hp, hS', hch⟩ := get_state_changes_ok_some st d S S' ch hd h
  subst hch
  refine ⟨rfl, ?_, ?_, ?_, by decide, by decide⟩
  · simp [format_number_text, totalDeltaRecord, Totals.item, String.join]
    rfl
  · intro v hv
    constructor
    · simp [pyArrow, pyGt0, hv]
    · simp [pyValueStr, pyGt0, pyStr, hv]
  · intro v hv
    constructor
    · simp [pyArrow, pyGt0, pyLt0, hv, not_lt_of_gt hv]
    · simp [pyValueStr, pyGt0, pyStr, hv, not_lt_of_gt hv]

/-- Witness for the amended C1 at the scenario input. -/
theorem c1_amended_dense_delta_record_witness :
    scenarioChanges.totals.changes
      = some (totalDeltaRecord scenarioPrev.totals scenarioCur.totals)
    ∧ format_number_text LOCALE_MAPPING scenarioChanges.totals.item
        scenarioChanges.totals.changes
      = Except.ok (String.join
          [numberLine LOCALE_MAPPING "confirmed" (PyVal.int scenarioCur.totals.confirmed)
            (PyVal.int (scenarioCur.totals.confirmed - scenarioPrev.totals.confirmed)),
           numberLine LOCALE_MAPPING "dead" (PyVal.int scenarioCur.totals.dead)
            (PyVal.int (scenarioCur.totals.dead - scenarioPrev.totals.dead)),
           numberLine LOCALE_MAPPING "recovered" (PyVal.int scenarioCur.totals.recovered)
            (PyVal.int (scenarioCur.totals.recovered - scenarioPrev.totals.recovered))])
    ∧ (∀ v : Int, 0 < v → pyArrow (PyVal.int v) = "▲ "
        ∧ pyValueStr (PyVal.int v) = "+" ++ toString v)
    ∧ (∀ v : Int, v < 0 → pyArrow (PyVal.int v) = "▼ "
        ∧ pyValueStr (PyVal.int v) = toString v)
    ∧ pyArrow (PyVal.int 0) = "" ∧ pyValueStr (PyVal.int 0) = "0" :=
  c1_amended_dense_delta_record LOCALE_MAPPING scenarioState scenarioPrev
    scenarioCur scenarioAnnotated scenarioChanges rfl rfl

/-! ### Claim C2 -/

/-- A stored snapshot whose totals equal the next fetch's totals but whose
municipality list differs: the diff returns `None` and the cycle skips
`set_state`. -/
def c2StoredSnap : Snapshot :=
  ⟨⟨100, 2, 50, none⟩, [⟨"Oslo", some 301, none, 10, 0, 1, 2, none⟩]⟩

/-- The state file content before the cycle. -/
def c2State : StoredState := ⟨"2020-03-15T10:00:00", some c2StoredSnap⟩

/-- The fetched snapshot: same totals, different municipality list. -/
def c2Fetched : Snapshot := ⟨⟨100, 2, 50, none⟩, []⟩

/-- Claim C2 counterexample: in a cycle whose fetch succeeded but whose
diff is empty (`changes is None`, line 247 of `live.py`), the loop
`continue`s without calling `set_state`, so the state file still holds the
old snapshot and timestamp — it is not overwritten with the fetched
snapshot. -/
theorem c2_unconditional_persist_counterexample :
    (cycle LOCALE_MAPPING (fun _ => (200, "ok")) INITIAL_SLACK_MESSAGE.blocks
        c2State "2020-03-15T11:00:00" c2Fetched).2.1 = c2State
    ∧ c2State.data ≠ some c2Fetched
    ∧ c2State ≠ ⟨"2020-03-15T11:00:00", some c2Fetched⟩ :=
  ⟨rfl, by decide, by decide⟩

/-- Claim C2 (amended): the state file is overwritten (with the current
snapshot as annotated in place by the diff) only in cycles that produce a
non-`None` change set and whose formatting raises no exception; a cycle
with an empty diff, a diff that raises, or a formatting exception leaves
the state file untouched. -/
theorem c2_persist_only_on_notifying_cycle (locale : String → String)
    (sink : SlackMessage → Nat × String) (g : List Block) (st : StoredState)
    (now : String) (fetched : Snapshot) :
    (∀ ann, get_state_changes st fetched = Except.ok (ann, none) →
        cycle locale sink g st now fetched = (g, st, []))
    ∧ (∀ e, get_state_changes st fetched = Except.error e →
        cycle locale sink g st now fetched = (g, st, []))
    ∧ (∀ ann ch g' msg, get_state_changes st fetched = Except.ok (ann, some ch) →
        format_slack_message locale g ch = (g', Except.ok msg) →
        cycle locale sink g st now fetched
          = (g', ⟨now, some ann⟩, send_slack_message sink msg))
    ∧ (∀ ann ch g' e, get_state_changes st fetched = Except.ok (ann, some ch) →
        format_slack_message locale g ch = (g', Except.error e) →
        cycle locale sink g st now fetched = (g', st, [])) := by
  refine ⟨fun ann h => ?_, fun e h => ?_,
    fun ann ch g' msg h hf => ?_, fun ann ch g' e h hf => ?_⟩
  · simp [cycle, h]
  · simp [cycle, h]
  · simp [cycle, h, hf]
  · simp [cycle, h, hf]

/-- Witness for the amended C2 at the concrete no-change cycle. -/
theorem c2_persist_only_on_notifying_cycle_witness :
    cycle LOCALE_MAPPING (fun _ => (200, "ok")) INITIAL_SLACK_MESSAGE.blocks
      c2State "2020-03-15T11:00:00" c2Fetched
      = (INITIAL_SLACK_MESSAGE.blocks, c2State, []) :=
  (c2_persist_only_on_notifying_cycle LOCALE_MAPPING (fun _ => (200, "ok"))
      INITIAL_SLACK_MESSAGE.blocks c2State "2020-03-15T11:00:00" c2Fetched).1
    c2Fetched rfl

/-! ### Claim C3 -/

/-- First formatting call on the pristine template state. -/
def c3run1 : List Block × Except PyError SlackMessage :=
  format_slack_message LOCALE_MAPPING INITIAL_SLACK_MESSAGE.blocks scenarioChanges

/-- Second formatting call with the SAME change set: because
`INITIAL_SLACK_MESSAGE.copy()` is shallow, the first call's appends are
still in the shared blocks list. -/
def c3run2 : List Block × Except PyError SlackMessage :=
  format_slack_message LOCALE_MAPPING c3run1.1 scenarioChanges

/-- Claim C3 (code bug): two calls of `format_slack_message` on the same
ChangeSet do NOT produce identical output — the shallow `.copy()` of
`INITIAL_SLACK_MESSAGE` (line 176) shares the mutable `blocks` list, every
call appends to it, and the second call returns a message carrying the
first call's blocks plus its own (4 blocks vs 7 blocks here). -/
theorem c3_formatting_not_deterministic :
    c3run1.2.toOption.map SlackMessage.blocks
      ≠ c3run2.2.toOption.map SlackMessage.blocks
    ∧ c3run1.2.toOption.map (fun m => m.blocks.length) = some 4
    ∧ c3run2.2.toOption.map (fun m => m.blocks.length) = some 7 :=
  ⟨by decide, rfl, rfl⟩

/-! ### Claims C4, C5, C10: the per-entity step -/

/-- The record emitted for a municipality by `processMunicipality` is the
municipality itself with its `"changes"` sub-dict attached. -/
theorem processMunicipality_emitted (stored : List Municipality)
    (pc : Option Rat) (m : Municipality) (pc' : Option Rat) (m' x : Municipality)
    (h : processMunicipality stored pc m = Except.ok (pc', m', some x)) :
    x = m' ∧ x.changes.isSome := by
  cases hf : findStored stored m with
  | none =>
    cases pc with
    | none => simp [processMunicipality, hf] at h
    | some v =>
      by_cases hz : v = 0 ∧ m.confirmed = 0 ∧ m.dead = 0 ∧ m.recovered = 0
      · simp [processMunicipality, hf, hz] at h
      · simp only [processMunicipality, hf, if_neg hz, Except.ok.injEq,
          Prod.mk.injEq, Option.some.injEq] at h
        obtain ⟨-, h2, h3⟩ := h
        subst h3; subst h2; simp
  | some s =>
    by_cases hz : m.confirmedPer1kCapita - s.confirmedPer1kCapita = 0
        ∧ m.confirmed - s.confirmed = 0 ∧ m.dead - s.dead = 0
        ∧ m.recovered - s.recovered = 0
    · simp [processMunicipality, hf, hz] at h
    · simp only [processMunicipality, hf, if_neg hz, Except.ok.injEq,
        Prod.mk.injEq, Option.some.injEq] at h
      obtain ⟨-, h2, h3⟩ := h
      subst h3; subst h2; simp

/-- Claim C4: an entity of the current snapshot with no counterpart in the
previous snapshot that yields an EntityChange record is marked
`is_new = True`, and its recorded count deltas are the entity's raw current
counts (delta against an implicit zero baseline). -/
theorem c4_new_entity_raw_deltas (stored : List Municipality) (pc : Option Rat)
    (m : Municipality) (pc' : Option Rat) (m' x : Municipality)
    (hnew : findStored stored m = none)
    (h : processMunicipality stored pc m = Except.ok (pc', m', some x)) :
    PyDict.get (x.changes.getD []) "is_new" = some (PyVal.bool true)
    ∧ PyDict.get (x.changes.getD []) "confirmed" = some (PyVal.int m.confirmed)
    ∧ PyDict.get (x.changes.getD []) "dead" = some (PyVal.int m.dead)
    ∧ PyDict.get (x.changes.getD []) "recovered" = some (PyVal.int m.recovered) := by
  cases pc with
  | none => simp [processMunicipality, hnew] at h
  | some v =>
    by_cases hz : v = 0 ∧ m.confirmed = 0 ∧ m.dead = 0 ∧ m.recovered = 0
    · simp [processMunicipality, hnew, hz] at h
    · simp only [processMunicipality, hnew, if_neg hz, Except.ok.injEq,
        Prod.mk.injEq, Option.some.injEq] at h
      obtain ⟨-, -, h3⟩ := h
      subst h3
      refine ⟨?_, ?_, ?_, ?_⟩ <;> rfl

/-- Previous municipality list for the C4 witness: only Oslo is stored. -/
def c4Stored : List Municipality := [⟨"Oslo", some 301, none, 10, 0, 1, 2, none⟩]

/-- A brand-new municipality (no stored counterpart). -/
def c4Bergen : Municipality := ⟨"Bergen", some 4601, none, 3, 0, 0, 1, none⟩

/-- `c4Bergen` as annotated by the loop when the stale per-capita binding
is `1/2`. -/
def c4BergenAnnotated : Municipality :=
  { c4Bergen with
      changes := some [("is_new", .bool true), ("confirmedPer1kCapita", .rat 1),
        ("confirmed", .int 3), ("dead", .int 0), ("recovered", .int 0)] }

/-- Witness for C4: the concrete new municipality gets `is_new = True` and
raw-count deltas. -/
theorem c4_new_entity_raw_deltas_witness :
    PyDict.get (c4BergenAnnotated.changes.getD []) "is_new" = some (PyVal.bool true)
    ∧ PyDict.get (c4BergenAnnotated.changes.getD []) "confirmed"
        = some (PyVal.int c4Bergen.confirmed)
    ∧ PyDict.get (c4BergenAnnotated.changes.getD []) "dead"
        = some (PyVal.int c4Bergen.dead)
    ∧ PyDict.get (c4BergenAnnotated.changes.getD []) "recovered"
        = some (PyVal.int c4Bergen.recovered) :=
  c4_new_entity_raw_deltas c4Stored (some 1) c4Bergen (some 1)
    c4BergenAnnotated c4BergenAnnotated (by decide) (by decide)

/-- Claim C5: counterpart selection follows the identity rule — the
`"Ukjent"` bucket matches a previous entity by name only (its own code
field, differing or absent, is irrelevant), every other entity matches by
equal `municipalityCode` with the `"Ukjent"` entry excluded even on a code
collision, and a matched entity's record is not-new with deltas computed
against the stored counterpart. -/
theorem c5_identity_matching_rule (stored : List Municipality) (m : Municipality) :
    (m.name = "Ukjent" →
        findStored stored m = stored.find? (fun s => s.name == "Ukjent"))
    ∧ (m.name = "Ukjent" → ∀ c',
        findStored stored { m with municipalityCode := c' } = findStored stored m)
    ∧ (m.name ≠ "Ukjent" → ∀ s, findStored stored m = some s →
        s.name ≠ "Ukjent" ∧ s.municipalityCode = m.municipalityCode)
    ∧ (∀ pc s pc' m' x, findStored stored m = some s →
        processMunicipality stored pc m = Except.ok (pc', m', some x) →
        PyDict.get (x.changes.getD []) "is_new" = some (PyVal.bool false)
        ∧ PyDict.get (x.changes.getD []) "confirmed"
            = some (PyVal.int (m.confirmed - s.confirmed))
        ∧ PyDict.get (x.changes.getD []) "dead"
            = some (PyVal.int (m.dead - s.dead))
        ∧ PyDict.get (x.changes.getD []) "recovered"
            = some (PyVal.int (m.recovered - s.recovered))) := by
  refine ⟨fun h => ?_, fun h c' => ?_, fun h s hs => ?_, fun pc s pc' m' x hs h => ?_⟩
  · simp [findStored, h]
  · simp [findStored, h]
  · unfold findStored at hs
    rw [if_neg h] at hs
    have := List.find?_some hs
    simpa using this
  · by_cases hz : m.confirmedPer1kCapita - s.confirmedPer1kCapita = 0
        ∧ m.confirmed - s.confirmed = 0 ∧ m.dead - s.dead = 0
        ∧ m.recovered - s.recovered = 0
    · simp [processMunicipality, hs, hz] at h
    · simp only [processMunicipality, hs, if_neg hz, Except.ok.injEq,
        Prod.mk.injEq, Option.some.injEq] at h
      obtain ⟨-, -, h3⟩ := h
      subst h3
      refine ⟨?_, ?_, ?_, ?_⟩ <;> rfl

/-- Previous municipality list for the C5 witness: Oslo plus an `"Ukjent"`
bucket whose code field is absent. -/
def c5Stored : List Municipality :=
  [⟨"Oslo", some 301, none, 5, 0, 0, 1, none⟩,
   ⟨"Ukjent", none, none, 7, 0, 0, 0, none⟩]

/-- A current `"Ukjent"` bucket whose code field differs (present while the
stored one is absent). -/
def c5Ukjent : Municipality := ⟨"Ukjent", some 9999, none, 9, 1, 0, 0, none⟩

/-- `c5Ukjent` as annotated by the loop: matched (not new), deltas against
the stored `"Ukjent"` counterpart. -/
def c5UkjentAnnotated : Municipality :=
  { c5Ukjent with
      changes := some [("is_new", .bool false), ("confirmedPer1kCapita", .rat 0),
        ("confirmed", .int 2), ("dead", .int 1), ("recovered", .int 0)] }

/-- The stored `"Ukjent"` bucket of `c5Stored`. -/
def c5StoredUkjent : Municipality := ⟨"Ukjent", none, none, 7, 0, 0, 0, none⟩

/-- Witness for C5: the unknown bucket present in both snapshots is matched
by name despite the differing/absent code and yields deltas against its
stored counterpart rather than being treated as new. -/
theorem c5_identity_matching_rule_witness :
    findStored c5Stored c5Ukjent = some c5StoredUkjent
    ∧ (PyDict.get (c5UkjentAnnotated.changes.getD []) "is_new"
        = some (PyVal.bool false)
      ∧ PyDict.get (c5UkjentAnnotated.changes.getD []) "confirmed"
          = some (PyVal.int (c5Ukjent.confirmed - c5StoredUkjent.confirmed))
      ∧ PyDict.get (c5UkjentAnnotated.changes.getD []) "dead"
          = some (PyVal.int (c5Ukjent.dead - c5StoredUkjent.dead))
      ∧ PyDict.get (c5UkjentAnnotated.changes.getD []) "recovered"
          = some (PyVal.int (c5Ukjent.recovered - c5StoredUkjent.recovered))) :=
  ⟨by decide,
   (c5_identity_matching_rule c5Stored c5Ukjent).2.2.2 none c5StoredUkjent
     (some 0) c5UkjentAnnotated c5UkjentAnnotated (by decide)
     (by simp [processMunicipality, findStored, c5Stored, c5Ukjent, c5UkjentAnnotated])⟩

/-- Every municipality appended to `changes["cases"]` carries a `"changes"`
sub-dict and is (the same object as) a member of the municipality list left
in `result["cases"]`. -/
theorem processCases_changed_mem (stored : List Municipality) :
    ∀ pc ms ann chd, processCases stored pc ms = Except.ok (ann, chd) →
      ∀ x ∈ chd, x.changes.isSome ∧ x ∈ ann := by
  intro pc ms
  induction ms generalizing pc with
  | nil =>
    intro ann chd h x hx
    simp only [processCases, Except.ok.injEq, Prod.mk.injEq] at h
    obtain ⟨-, h2⟩ := h
    subst h2
    simp at hx
  | cons m rest ih =>
    intro ann chd h x hx
    cases hm : processMunicipality stored pc m with
    | error e => simp [processCases, hm, bind, Except.bind] at h
    | ok t =>
      obtain ⟨pc', m', app⟩ := t
      cases hr : processCases stored pc' rest with
      | error e => simp [processCases, hm, hr, bind, Except.bind] at h
      | ok t' =>
        obtain ⟨ann', chd'⟩ := t'
        simp only [processCases, hm, hr, bind, Except.bind, Except.ok.injEq,
          Prod.mk.injEq] at h
        obtain ⟨h1, h2⟩ := h
        subst h1; subst h2
        rcases List.mem_append.mp hx with hx1 | hx2
        · have happ : app = some x := by
            cases app with
            | none => simp at hx1
            | some y => simp at hx1; subst hx1; rfl
          subst happ
          obtain ⟨he, hs⟩ := processMunicipality_emitted stored pc m pc' m' x hm
          subst he
          exact ⟨hs, List.mem_cons_self _ _⟩
        · obtain ⟨hs, hmem⟩ := ih pc' ann' chd' hr x hx2
          exact ⟨hs, List.mem_cons_of_mem _ hmem⟩

/-! ### Claim C9 -/

/-- Claim C9: the diff mutates the fetched snapshot in place — on a
change-producing run the returned current snapshot carries the total-delta
record under its totals' `"changes"` key (so it differs from the snapshot
as fetched), every reported municipality carries a `"changes"` sub-dict
and is a member of the returned snapshot's municipality list, the change
set's totals are the annotated snapshot's totals (aliasing), and a
notifying cycle persists exactly this annotated snapshot. -/
theorem c9_in_place_mutation (st : StoredState) (d S S' : Snapshot)
    (ch : Changes) (hd : st.data = some d)
    (hfresh : S.totals.changes = none)
    (h : get_state_changes st S = Except.ok (S', some ch)) :
    S'.totals.changes = some (totalDeltaRecord d.totals S.totals)
    ∧ ch.totals = S'.totals
    ∧ S' ≠ S
    ∧ (∀ x ∈ ch.cases, x.changes.isSome ∧ x ∈ S'.cases)
    ∧ (∀ locale sink g now g' msg,
        format_slack_message locale g ch = (g', Except.ok msg) →
        (cycle locale sink g st now S).2.1 = ⟨now, some S'⟩) := by
  obtain ⟨ann, chd, hp, hS', hch⟩ := get_state_changes_ok_some st d S S' ch hd h
  subst hS'; subst hch
  refine ⟨rfl, rfl, ?_, ?_, ?_⟩
  · intro he
    have := congrArg (fun s => s.totals.changes) he
    simp only at this
    rw [hfresh] at this
    simp at this
  · intro x hx
    exact processCases_changed_mem d.cases none S.cases ann chd hp x hx
  · intro locale sink g now g' msg hf
    simp [cycle, h, hf]

/-- Witness for C9 at the scenario input. -/
theorem c9_in_place_mutation_witness :
    scenarioAnnotated.totals.changes
      = some (totalDeltaRecord scenarioPrev.totals scenarioCur.totals)
    ∧ scenarioChanges.totals = scenarioAnnotated.totals
    ∧ scenarioAnnotated ≠ scenarioCur
    ∧ (∀ x ∈ scenarioChanges.cases, x.changes.isSome ∧ x ∈ scenarioAnnotated.cases)
    ∧ (∀ locale sink g now g' msg,
        format_slack_message locale g scenarioChanges = (g', Except.ok msg) →
        (cycle locale sink g scenarioState now scenarioCur).2.1
          = ⟨now, some scenarioAnnotated⟩) :=
  c9_in_place_mutation scenarioState scenarioPrev scenarioCur scenarioAnnotated
    scenarioChanges rfl rfl rfl

/-! ### Claim C10 -/

/-- Claim C10: the diff is not total — when the first municipality of the
current snapshot is new (no counterpart) the all-deltas-zero test reads the
still-unbound local `confirmed_per_1k_capita_diff` and the call raises
`NameError`; and when a matched municipality was processed earlier, a new
municipality's emitted record stores the stale per-capita delta `v` (left
over from that earlier municipality, not derived from the new entity), the
binding survives unchanged, and the stale value also feeds the new
municipality's zero test (all-zero raw counts plus stale `v = 0` silently
skip the new municipality). -/
theorem c10_unbound_percapita_local (st : StoredState) (d S : Snapshot)
    (m : Municipality) (rest : List Municipality)
    (hd : st.data = some d)
    (hne : ¬(d.totals.confirmed = S.totals.confirmed
        ∧ d.totals.dead = S.totals.dead
        ∧ d.totals.recovered = S.totals.recovered))
    (hcases : S.cases = m :: rest)
    (hnew : findStored d.cases m = none) :
    get_state_changes st S = Except.error PyError.nameError
    ∧ (∀ stored v mm pc' mm' x, findStored stored mm = none →
        processMunicipality stored (some v) mm = Except.ok (pc', mm', some x) →
        PyDict.get (x.changes.getD []) "confirmedPer1kCapita"
          = some (PyVal.rat v) ∧ pc' = some v)
    ∧ (∀ stored v mm, findStored stored mm = none → v = 0 →
        mm.confirmed = 0 → mm.dead = 0 → mm.recovered = 0 →
        processMunicipality stored (some v) mm = Except.ok (some v, mm, none)) := by
  refine ⟨?_, ?_, ?_⟩
  · obtain ⟨lu, sd⟩ := st
    simp only at hd
    subst hd
    have h1 : processMunicipality d.cases none m = Except.error PyError.nameError := by
      simp [processMunicipality, hnew]
    simp [get_state_changes, if_neg hne, hcases, processCases, h1, bind, Except.bind]
  · intro stored v mm pc' mm' x hf h
    by_cases hz : v = 0 ∧ mm.confirmed = 0 ∧ mm.dead = 0 ∧ mm.recovered = 0
    · simp [processMunicipality, hf, hz] at h
    · simp only [processMunicipality, hf, if_neg hz, Except.ok.injEq,
        Prod.mk.injEq, Option.some.injEq] at h
      obtain ⟨h1, -, h3⟩ := h
      subst h3
      exact ⟨rfl, h1.symm⟩
  · intro stored v mm hf hv hc hde hr
    simp [processMunicipality, hf, hv, hc, hde, hr]

/-- A current snapshot whose first municipality is new: totals changed and
the only municipality has no stored counterpart. -/
def c10Cur : Snapshot := ⟨⟨105, 2, 52, none⟩, [c4Bergen]⟩

/-- A new municipality whose raw counts are all zero (to exhibit the stale
zero test silently skipping it). -/
def c10ZeroMun : Municipality := ⟨"Tromsø", some 5401, none, 0, 0, 0, 0, none⟩

/-- Witness for C10: the concrete first-entity-new cycle raises `NameError`;
a later new municipality records the stale per-capita delta `1`; and a
zero-count new municipality is silently skipped when the stale delta is 0. -/
theorem c10_unbound_percapita_local_witness :
    get_state_changes scenarioState c10Cur = Except.error PyError.nameError
    ∧ (PyDict.get (c4BergenAnnotated.changes.getD []) "confirmedPer1kCapita"
        = some (PyVal.rat 1) ∧ (some 1 : Option Rat) = some 1)
    ∧ processMunicipality c4Stored (some 0) c10ZeroMun
        = Except.ok (some 0, c10ZeroMun, none) :=
  ⟨(c10_unbound_percapita_local scenarioState scenarioPrev c10Cur c4Bergen []
      rfl (by decide) rfl (by decide)).1,
   (c10_unbound_percapita_local scenarioState scenarioPrev c10Cur c4Bergen []
      rfl (by decide) rfl (by decide)).2.1 c4Stored 1 c4Bergen (some 1)
     c4BergenAnnotated c4BergenAnnotated (by decide) (by decide),
   (c10_unbound_percapita_local scenarioState scenarioPrev c10Cur c4Bergen []
      rfl (by decide) rfl (by decide)).2.2 c4Stored 0 c10ZeroMun (by decide)
     rfl rfl rfl rfl⟩

/-! ### Claims C6, C7: the delivery dispatcher -/

/-- Flattening singleton blocks is mapping. -/
theorem flatten_map_singleton {a b : Type} (l : List a) (f : a → b) :
    (l.map (fun x => [f x])).flatten = l.map f := by
  induction l with
  | nil => rfl
  | cons x t ih => simp [ih]

/-- Unfolding equation of the slicing on a non-empty list. -/
theorem sliceChunks_cons_eq (l : List Block) (h : l ≠ []) :
    sliceChunks l = l.take 50 :: sliceChunks (l.drop 50) := by
  cases l with
  | nil => exact absurd rfl h
  | cons x xs => rw [sliceChunks]

/-- The slicing is a partition: concatenating the chunks restores the
original block sequence. -/
theorem sliceChunks_flatten (l : List Block) : (sliceChunks l).flatten = l := by
  generalize hn : l.length = n
  induction n using Nat.strong_induction_on generalizing l with
  | _ n ih =>
    cases l with
    | nil => simp [sliceChunks]
    | cons x xs =>
      rw [sliceChunks, List.flatten_cons]
      subst hn
      rw [ih ((x :: xs).drop 50).length (by simp; omega) ((x :: xs).drop 50) rfl]
      exact List.take_append_drop 50 (x :: xs)

/-- Over the 50-block cap, `send_slack_message` is one post per chunk with
the chunk substituted for the blocks field. -/
theorem send_eq_map_chunks (sink : SlackMessage → Nat × String)
    (msg : SlackMessage) (h : msg.blocks.length > 50) :
    send_slack_message sink msg
      = (sliceChunks msg.blocks).map
          (fun c => deliverOnce sink { msg with blocks := c }) := by
  rw [send_slack_message, dif_pos h]
  have hinner : ∀ c ∈ sliceChunks msg.blocks,
      send_slack_message sink { msg with blocks := c }
        = [deliverOnce sink { msg with blocks := c }] := by
    intro c hc
    rw [send_slack_message, dif_neg]
    have := sliceChunks_length_le msg.blocks c hc
    simp only [gt_iff_lt, not_lt]
    exact this
  calc ((sliceChunks msg.blocks).attach.map
          (fun c => send_slack_message sink { msg with blocks := c.1 })).flatten
      = ((sliceChunks msg.blocks).attach.map
          (fun c => [deliverOnce sink { msg with blocks := c.1 }])).flatten := by
        congr 1
        apply List.map_congr_left
        intro c _
        exact hinner c.1 c.2
    _ = ((sliceChunks msg.blocks).map
          (fun c => [deliverOnce sink { msg with blocks := c }])).flatten := by
        congr 1
        exact List.attach_map_coe _
          (fun c => [deliverOnce sink { msg with blocks := c }])
    _ = (sliceChunks msg.blocks).map
          (fun c => deliverOnce sink { msg with blocks := c }) :=
        flatten_map_singleton _ _

/-- Chunk lengths of a 120-block sequence: 50, 50, 20. -/
theorem sliceChunks_lengths_of_120 (l : List Block) (h : l.length = 120) :
    (sliceChunks l).map List.length = [50, 50, 20] := by
  have h1 : l ≠ [] := by intro e; rw [e] at h; simp at h
  rw [sliceChunks_cons_eq l h1]
  have hd1 : (l.drop 50).length = 70 := by simp [h]
  have h2 : l.drop 50 ≠ [] := by intro e; rw [e] at hd1; simp at hd1
  rw [sliceChunks_cons_eq _ h2]
  have hd2 : ((l.drop 50).drop 50).length = 20 := by simp [h]
  have h3 : (l.drop 50).drop 50 ≠ [] := by intro e; rw [e] at hd2; simp at hd2
  rw [sliceChunks_cons_eq _ h3]
  have hd3 : ((l.drop 50).drop 50).drop 50 = [] := by
    apply List.eq_nil_of_length_eq_zero
    simp [h]
  rw [hd3]
  simp [sliceChunks, List.length_take, h, hd1, hd2]

/-- Claim C6: a block sequence longer than 50 is split into consecutive
chunks of at most 50 blocks, order preserved (the chunks concatenate back
to the original sequence), with one delivery per chunk carrying the same
envelope metadata (username, icon, channel); a 120-block sequence yields
exactly 3 deliveries of sizes 50, 50, 20 in order. -/
theorem c6_chunked_delivery (sink : SlackMessage → Nat × String)
    (msg : SlackMessage) (h : msg.blocks.length > 50) :
    send_slack_message sink msg
      = (sliceChunks msg.blocks).map
          (fun c => deliverOnce sink { msg with blocks := c })
    ∧ ((send_slack_message sink msg).map (fun p => p.1.blocks)).flatten
        = msg.blocks
    ∧ (∀ p ∈ send_slack_message sink msg,
        p.1.username = msg.username ∧ p.1.icon_emoji = msg.icon_emoji
        ∧ p.1.channel = msg.channel ∧ p.1.blocks.length ≤ 50)
    ∧ (msg.blocks.length = 120 →
        (send_slack_message sink msg).map (fun p => p.1.blocks.length)
          = [50, 50, 20]) := by
  have he := send_eq_map_chunks sink msg h
  refine ⟨he, ?_, ?_, ?_⟩
  · rw [he, List.map_map]
    show ((sliceChunks msg.blocks).map (fun c => c)).flatten = msg.blocks
    rw [List.map_id']
    exact sliceChunks_flatten _
  · intro p hp
    rw [he] at hp
    obtain ⟨c, hc, rfl⟩ := List.mem_map.mp hp
    exact ⟨rfl, rfl, rfl, sliceChunks_length_le msg.blocks c hc⟩
  · intro h120
    rw [he, List.map_map]
    show (sliceChunks msg.blocks).map List.length = [50, 50, 20]
    exact sliceChunks_lengths_of_120 msg.blocks h120

/-- A 120-block message (numbered sections, so order is observable). -/
def msg120 : SlackMessage :=
  ⟨"COVID-19", ":biohazard_sign:", "#covid-19",
   (List.range 120).map (fun i => Block.sectionBlock (toString i))⟩

/-- Witness for C6 at the 120-block message. -/
theorem c6_chunked_delivery_witness :
    send_slack_message (fun _ => (200, "ok")) msg120
      = (sliceChunks msg120.blocks).map
          (fun c => deliverOnce (fun _ => (200, "ok")) { msg120 with blocks := c })
    ∧ ((send_slack_message (fun _ => (200, "ok")) msg120).map
          (fun p => p.1.blocks)).flatten = msg120.blocks
    ∧ (∀ p ∈ send_slack_message (fun _ => (200, "ok")) msg120,
        p.1.username = msg120.username ∧ p.1.icon_emoji = msg120.icon_emoji
        ∧ p.1.channel = msg120.channel ∧ p.1.blocks.length ≤ 50)
    ∧ (msg120.blocks.length = 120 →
        (send_slack_message (fun _ => (200, "ok")) msg120).map
            (fun p => p.1.blocks.length) = [50, 50, 20]) :=
  c6_chunked_delivery (fun _ => (200, "ok")) msg120
    (by simp only [msg120, List.length_map, List.length_range]; omega)

/-- Every entry of the returned delivery list is an actual post outcome. -/
theorem send_results_are_posts (sink : SlackMessage → Nat × String)
    (msg : SlackMessage) :
    ∀ p ∈ send_slack_message sink msg, p = deliverOnce sink p.1 := by
  intro p hp
  by_cases h : msg.blocks.length > 50
  · rw [send_eq_map_chunks sink msg h] at hp
    obtain ⟨c, hc, rfl⟩ := List.mem_map.mp hp
    rfl
  · rw [send_slack_message, dif_neg h] at hp
    have := List.mem_singleton.mp hp
    subst this
    rfl

/-- Claim C7: a webhook response with a non-success status makes the
delivery report a failure carrying the status and the response body, and a
success is reported exactly when the sink answers HTTP 200. -/
theorem c7_failure_on_non_200 (sink : SlackMessage → Nat × String)
    (msg : SlackMessage) :
    (msg.blocks.length ≤ 50 → (sink msg).1 ≠ 200 →
        send_slack_message sink msg
          = [(msg, DeliveryResult.failure (sink msg).1 (sink msg).2)])
    ∧ (msg.blocks.length ≤ 50 → (sink msg).1 = 200 →
        send_slack_message sink msg = [(msg, DeliveryResult.success)])
    ∧ (∀ p ∈ send_slack_message sink msg,
        (p.2 = DeliveryResult.success ↔ (sink p.1).1 = 200)) := by
  refine ⟨fun hle hne => ?_, fun hle he => ?_, fun p hp => ?_⟩
  · rw [send_slack_message, dif_neg (by omega)]
    simp [deliverOnce, if_neg hne]
  · rw [send_slack_message, dif_neg (by omega)]
    simp [deliverOnce, if_pos he]
  · obtain ⟨pm, pr⟩ := p
    have hq := send_results_are_posts sink msg (pm, pr) hp
    have h2 := congrArg Prod.snd hq
    simp only [deliverOnce] at h2
    by_cases hs : (sink pm).1 = 200
    · simp only at h2 ⊢
      rw [h2, if_pos hs]
      simp [hs]
    · simp only at h2 ⊢
      rw [h2, if_neg hs]
      simp [hs]

/-- Witness for C7: a constant HTTP 500 sink makes the single delivery of
a small message fail with status 500 and the response body. -/
theorem c7_failure_on_non_200_witness :
    send_slack_message (fun _ => (500, "invalid_payload")) INITIAL_SLACK_MESSAGE
      = [(INITIAL_SLACK_MESSAGE, DeliveryResult.failure 500 "invalid_payload")] :=
  (c7_failure_on_non_200 (fun _ => (500, "invalid_payload"))
      INITIAL_SLACK_MESSAGE).1 (by decide) (by decide)
